import Mathlib

/-!
Verification of the terra-draw polygon drawing mode
(src/modes/polygon/polygon.mode.ts).

The mode is a click-driven finite state machine over a partial polygon
ring. We embed the mutable fields of the TerraDrawPolygonMode class, the
feature store it drives, and its event handlers (onClick, onMouseMove,
onKeyUp, cleanUp) as pure Lean functions over an explicit state record.

External collaborators that live outside the single source file under
study (the snapping behavior, the closing points behavior, the
self-intersection predicate, the store implementation) are modelled
either abstractly as injected functions (mirroring the way the class
receives them as behaviors) or, where a claim depends on their
behaviour, from the specification's description of their contract; those
definitions carry a doc comment starting with the words Modelled from
the spec.

Coordinates are modelled as rationals: the source works with JavaScript
numbers, and the claims under study concern control flow and structural
equality of rings, not floating point rounding.
-/

/-- Two dimensional map coordinate (longitude, latitude). -/
structure Coord where
  lng : ℚ
  lat : ℚ
deriving DecidableEq, Repr

/-- Pointer event as delivered by the adapter: projected map coordinates
plus the raw pixel position used for proximity tests (pixel positions are
whole screen pixels, modelled as integers). -/
structure TerraDrawMouseEvent where
  lng : ℚ
  lat : ℚ
  containerX : ℤ
  containerY : ℤ
deriving DecidableEq, Repr

/-- Keyboard event: carries the key identifier. -/
structure TerraDrawKeyboardEvent where
  key : String
deriving DecidableEq, Repr

/-- Key bindings of the polygon mode. -/
structure TerraDrawPolygonModeKeyEvents where
  cancel : String
deriving DecidableEq, Repr

/-- Constructor options of TerraDrawPolygonMode; every field is optional,
mirroring the optional object parameter of the TypeScript constructor. -/
structure PolygonModeOptions where
  allowSelfIntersections : Option Bool
  snapping : Option Bool
  keyEvents : Option TerraDrawPolygonModeKeyEvents
deriving DecidableEq, Repr

/-- The configuration fields of TerraDrawPolygonMode that are assigned once
in the constructor and never reassigned afterwards. -/
structure TerraDrawPolygonMode where
  allowSelfIntersections : Bool
  snappingEnabled : Bool
  keyEvents : TerraDrawPolygonModeKeyEvents
  coordinatePrecision : Nat
deriving DecidableEq, Repr

/-- The constructor of TerraDrawPolygonMode: mirrors the option defaulting
in the source (snapping defaults to false, allowSelfIntersections to true,
the cancel key to "Escape"). coordinatePrecision is owned by the base mode
and defaults to 9; it only feeds the preview epsilon. -/
def makePolygonMode (options : Option PolygonModeOptions) : TerraDrawPolygonMode :=
  { snappingEnabled :=
      match options with
      | some o => match o.snapping with | some b => b | none => false
      | none => false
    allowSelfIntersections :=
      match options with
      | some o => match o.allowSelfIntersections with | some b => b | none => true
      | none => true
    keyEvents :=
      match options with
      | some o => match o.keyEvents with | some k => k | none => ⟨"Escape"⟩
      | none => ⟨"Escape"⟩
    coordinatePrecision := 9 }

/-- Modelled from the spec: the Coordinate Equality Check, a pure predicate
deciding whether two coordinates are the same point within the precision
tolerance. Coordinates here are taken after precision handling, so the
check is exact equality. The implementation lives outside the source file
under study (geometry/coordinates-identical). -/
def coordinatesIdentical (a b : Coord) : Bool :=
  a.lng == b.lng && a.lat == b.lat

/-- Modelled from the spec: the createPolygon geometry helper wraps a ring
into a polygon feature; only the ring itself is relevant to the claims, so
the wrapper is the identity on rings. -/
def createPolygon (ring : List Coord) : List Coord := ring

/-- Index into a ring, defaulting to the origin. Source indexing never goes
out of range on reachable states; the default only makes the function
total. -/
def coordAt (l : List Coord) (n : Nat) : Coord := l.getD n ⟨0, 0⟩

/-- Association list lookup for the feature store. -/
def lookupRing : List (Nat × List Coord) → Nat → Option (List Coord)
  | [], _ => none
  | (i, r) :: rest, fid => if i = fid then some r else lookupRing rest fid

/-- Replace the ring stored under a given id, leaving other entries and
absent ids untouched. -/
def updateRingList : List (Nat × List Coord) → Nat → List Coord → List (Nat × List Coord)
  | [], _, _ => []
  | (i, r0) :: rest, fid, r =>
    if i = fid then (i, r) :: updateRingList rest fid r
    else (i, r0) :: updateRingList rest fid r

/-- Remove the entry stored under a given id. -/
def deleteRingList : List (Nat × List Coord) → Nat → List (Nat × List Coord)
  | [], _ => []
  | (i, r0) :: rest, fid =>
    if i = fid then deleteRingList rest fid else (i, r0) :: deleteRingList rest fid

/-- The feature store collaborator: polygon rings keyed by id, with fresh
ids assigned from a counter by create. -/
structure Store where
  nextId : Nat
  features : List (Nat × List Coord)
deriving DecidableEq, Repr

/-- getGeometryCopy restricted to the ring of a polygon feature. -/
def Store.getGeometry (s : Store) (fid : Nat) : List Coord :=
  (lookupRing s.features fid).getD []

/-- updateGeometry for a single polygon feature. -/
def Store.updateGeometry (s : Store) (fid : Nat) (r : List Coord) : Store :=
  { s with features := updateRingList s.features fid r }

/-- delete for a single feature. -/
def Store.deleteFeature (s : Store) (fid : Nat) : Store :=
  { s with features := deleteRingList s.features fid }

/-- create for a single polygon feature; returns the fresh id. -/
def Store.createFeature (s : Store) (r : List Coord) : Nat × Store :=
  (s.nextId, { nextId := s.nextId + 1, features := (s.nextId, r) :: s.features })

/-- Result record of ClosingPointsBehavior.isClosingPoint. -/
structure ClosingResult where
  isClosing : Bool
  isPreviousClosing : Bool
deriving DecidableEq, Repr

/-- The injected behavior collaborators of the mode. snapFn models
SnappingBehavior.getSnappableCoordinate (event and current feature id to
optional replacement coordinate), closingFn models
ClosingPointsBehavior.isClosingPoint, and selfIntersectsFn models the
selfIntersects geometry predicate applied to the candidate ring. -/
structure Behaviors where
  snapFn : TerraDrawMouseEvent → Nat → Option Coord
  closingFn : TerraDrawMouseEvent → ClosingResult
  selfIntersectsFn : List Coord → Bool

/-- Modelled from the spec: ClosingPointsBehavior.create places a closing
marker at the ring's first vertex. -/
def createMarkers (ring : List Coord) : List Coord := [coordAt ring 0]

/-- Modelled from the spec: ClosingPointsBehavior.update repositions the
existing markers to track the current ring; the marker count is
preserved. -/
def updateMarkers (ring : List Coord) (m : List Coord) : List Coord :=
  m.map (fun _ => coordAt ring 0)

/-- Squared pixel distance between two pixel positions. -/
def pixelDistSq (x1 y1 x2 y2 : ℤ) : ℤ := (x1 - x2) * (x1 - x2) + (y1 - y2) * (y1 - y2)

/-- Modelled from the spec: ClosingPointsBehavior.isClosingPoint. isClosing
holds when the pointer's pixel position is within the hit radius of the
closing marker placed at the ring's first vertex; isPreviousClosing when
it is within the hit radius of the vertex immediately preceding the
uncommitted tail. proj is the adapter's map-to-pixel projection and d the
pointer distance threshold. -/
def specIsClosingPoint (proj : Coord → ℤ × ℤ) (d : ℤ)
    (closingMarker prevMarker : Coord) (e : TerraDrawMouseEvent) : ClosingResult :=
  { isClosing :=
      decide (pixelDistSq e.containerX e.containerY
        (proj closingMarker).1 (proj closingMarker).2 ≤ d * d)
    isPreviousClosing :=
      decide (pixelDistSq e.containerX e.containerY
        (proj prevMarker).1 (proj prevMarker).2 ≤ d * d) }

/-- The mutable per-session state of the mode, together with the store it
drives and the closing marker features owned by the
ClosingPointsBehavior. -/
structure PolygonState where
  currentCoordinate : Nat
  currentId : Option Nat
  isClosed : Bool
  cursor : String
  store : Store
  markers : List Coord
deriving DecidableEq, Repr

/-- The coordinate a click actually uses: in onClick, closestCoord is the
snap resolver's suggestion when a feature is in progress and snapping is
enabled, and each branch falls back to the raw pointer coordinate when
there is no suggestion. -/
def snappedClick (cfg : TerraDrawPolygonMode) (env : Behaviors)
    (e : TerraDrawMouseEvent) (s : PolygonState) : Coord :=
  match s.currentId with
  | some fid =>
    if cfg.snappingEnabled then (env.snapFn e fid).getD ⟨e.lng, e.lat⟩
    else ⟨e.lng, e.lat⟩
  | none => ⟨e.lng, e.lat⟩

/-- The onClick handler, translated branch by branch from the source. -/
def onClick (cfg : TerraDrawPolygonMode) (env : Behaviors)
    (e : TerraDrawMouseEvent) (s : PolygonState) : PolygonState :=
  let p := snappedClick cfg env e s
  if s.currentCoordinate = 0 then
    let created := s.store.createFeature [p, p, p, p]
    { s with store := created.2, currentId := some created.1,
             currentCoordinate := s.currentCoordinate + 1 }
  else
    match s.currentId with
    | none => s
    | some fid =>
      if s.currentCoordinate = 1 then
        let coords := s.store.getGeometry fid
        if coordinatesIdentical p (coordAt coords 0) then s
        else
          { s with
            store := s.store.updateGeometry fid
              [coordAt coords 0, p, p, coordAt coords 0]
            currentCoordinate := s.currentCoordinate + 1 }
      else if s.currentCoordinate = 2 then
        let coords := s.store.getGeometry fid
        if coordinatesIdentical p (coordAt coords 1) then s
        else
          { s with
            markers := createMarkers coords
            store := s.store.updateGeometry fid
              [coordAt coords 0, coordAt coords 1, p, p, coordAt coords 0]
            currentCoordinate := s.currentCoordinate + 1 }
      else
        let coords := s.store.getGeometry fid
        let r := env.closingFn e
        if r.isPreviousClosing || r.isClosing then
          { s with
            store := s.store.updateGeometry fid
              (coords.dropLast.dropLast ++ [coordAt coords 0])
            currentCoordinate := 0
            currentId := none
            markers := [] }
        else
          if coordinatesIdentical p (coordAt coords (s.currentCoordinate - 1)) then s
          else
            let updatedPolygon := createPolygon
              (coords.dropLast ++ [p, coordAt coords 0])
            if 2 < s.currentCoordinate ∧ cfg.allowSelfIntersections = false ∧
                env.selfIntersectsFn updatedPolygon = true then s
            else
              { s with
                store := s.store.updateGeometry fid updatedPolygon
                currentCoordinate := s.currentCoordinate + 1 }

/-- Shared tail of onMouseMove: write the updated ring to the store, then
refresh the closing markers when any exist. -/
def moveCommit (s : PolygonState) (fid : Nat) (updated : List Coord) : PolygonState :=
  let s1 := { s with store := s.store.updateGeometry fid updated }
  if s1.markers.length ≠ 0 then { s1 with markers := updateMarkers updated s1.markers }
  else s1

/-- The onMouseMove handler, translated branch by branch from the source. -/
def onMouseMove (cfg : TerraDrawPolygonMode) (env : Behaviors)
    (e : TerraDrawMouseEvent) (s : PolygonState) : PolygonState :=
  let s1 := { s with cursor := "crosshair" }
  match s1.currentId with
  | none => s1
  | some fid =>
    if s1.currentCoordinate = 0 then s1
    else
      let closest := if cfg.snappingEnabled then env.snapFn e fid else none
      let coords := s1.store.getGeometry fid
      let p := closest.getD ⟨e.lng, e.lat⟩
      if s1.currentCoordinate = 1 then
        let epsilon := 1 / (10 : ℚ) ^ (cfg.coordinatePrecision - 1)
        let offset := max (1 / 1000000 : ℚ) epsilon
        moveCommit s1 fid
          [coordAt coords 0, p, ⟨p.lng, p.lat + offset⟩, coordAt coords 0]
      else if s1.currentCoordinate = 2 then
        moveCommit s1 fid
          [coordAt coords 0, coordAt coords 1, p, coordAt coords 0]
      else
        let r := env.closingFn e
        if r.isPreviousClosing || r.isClosing then
          moveCommit { s1 with cursor := "pointer", isClosed := true } fid
            (coords.dropLast.dropLast ++ [coordAt coords 0, coordAt coords 0])
        else
          moveCommit { s1 with isClosed := false } fid
            (coords.dropLast.dropLast ++ [p, coordAt coords 0])

/-- The cleanUp method. The deleteThrows flag models whether the
store.delete call inside the try block raises; when it does, the rest of
the try block (marker deletion) is skipped, and either way the session
fields are reset after the catch. -/
def cleanUp (deleteThrows : Bool) (s : PolygonState) : PolygonState :=
  let s1 :=
    match s.currentId with
    | some fid =>
      if deleteThrows then s
      else
        let s2 := { s with store := s.store.deleteFeature fid }
        if s2.markers.length ≠ 0 then { s2 with markers := [] } else s2
    | none =>
      if s.markers.length ≠ 0 then { s with markers := [] } else s
  { s1 with currentId := none, currentCoordinate := 0 }

/-- The onKeyUp handler: cancel runs cleanUp, any other key is ignored. -/
def onKeyUp (cfg : TerraDrawPolygonMode) (deleteThrows : Bool)
    (event : TerraDrawKeyboardEvent) (s : PolygonState) : PolygonState :=
  if event.key = cfg.keyEvents.cancel then cleanUp deleteThrows s else s

/-- The closed-ring invariant of the in-progress feature: whenever a
feature is under construction, its stored ring has at least 4 entries and
identical first and last entries. -/
def ringClosedOk (s : PolygonState) : Bool :=
  match s.currentId with
  | none => true
  | some fid =>
    let ring := s.store.getGeometry fid
    decide (4 ≤ ring.length) && (ring.head? == ring.getLast?)

/-! ### Concrete fixtures

A replay of the concrete scenario from the design notes: clicks at
(0,0), (1,1) and (2,0) under the default configuration. -/

/-- Default mode configuration (constructed without options). -/
def cfgDefault : TerraDrawPolygonMode := makePolygonMode none

/-- Collaborators with snapping finding nothing, the pointer never inside
a closing hit-zone, and no self-intersections. -/
def envPlain : Behaviors :=
  { snapFn := fun _ _ => none
    closingFn := fun _ => ⟨false, false⟩
    selfIntersectsFn := fun _ => false }

/-- Pointer event at integral map coordinates, pixel-aligned under the
integral projection. -/
def evAt (x y : ℤ) : TerraDrawMouseEvent := ⟨(x : ℚ), (y : ℚ), x, y⟩

/-- Map-to-pixel projection for integral coordinates. -/
def projI : Coord → ℤ × ℤ := fun c => (c.lng.floor, c.lat.floor)

/-- Fresh mode state before any click. -/
def stEmpty : PolygonState :=
  { currentCoordinate := 0, currentId := none, isClosed := false,
    cursor := "unset", store := ⟨0, []⟩, markers := [] }

/-- State after one click at (0,0). -/
def stOne : PolygonState := onClick cfgDefault envPlain (evAt 0 0) stEmpty

/-- State after clicks at (0,0) and (1,1). -/
def stTwo : PolygonState := onClick cfgDefault envPlain (evAt 1 1) stOne

/-- State after clicks at (0,0), (1,1) and (2,0): the Drawing state with
ring [(0,0),(1,1),(2,0),(2,0),(0,0)] and a closing marker. -/
def stThree : PolygonState := onClick cfgDefault envPlain (evAt 2 0) stTwo

/-- Collaborators whose closing point detector follows the spec contract,
with the closing marker at (0,0) and the previous vertex marker at
(2,0), matching stThree. -/
def envClose : Behaviors :=
  { envPlain with closingFn := specIsClosingPoint projI 1 ⟨0, 0⟩ ⟨2, 0⟩ }

/-! ### Store lemmas -/

theorem lookupRing_updateRingList (fs : List (Nat × List Coord)) (fid : Nat)
    (r : List Coord) :
    lookupRing (updateRingList fs fid r) fid = (lookupRing fs fid).map (fun _ => r) := by
  induction fs with
  | nil => rfl
  | cons hd tl ih =>
    obtain ⟨i, r0⟩ := hd
    by_cases h : i = fid <;> simp [updateRingList, lookupRing, h, ih]

theorem getGeometry_update_self (s : Store) (fid : Nat) (r ring : List Coord)
    (h : lookupRing s.features fid = some ring) :
    (s.updateGeometry fid r).getGeometry fid = r := by
  simp [Store.getGeometry, Store.updateGeometry, lookupRing_updateRingList, h]

theorem lookup_of_length (s : Store) (fid : Nat)
    (h : 4 ≤ (s.getGeometry fid).length) :
    lookupRing s.features fid = some (s.getGeometry fid) := by
  unfold Store.getGeometry at *
  cases hl : lookupRing s.features fid with
  | none => rw [hl] at h; simp at h
  | some r => simp [hl]

/-! ### List lemmas for ring shapes -/

theorem getLast_append_single (l : List Coord) (x : Coord) :
    (l ++ [x]).getLast? = some x := by
  simp [List.getLast?_concat]

theorem getLast_append_double (l : List Coord) (x y : Coord) :
    (l ++ [x, y]).getLast? = some y := by
  have h : l ++ [x, y] = (l ++ [x]) ++ [y] := by simp
  rw [h, getLast_append_single]

/-! ### Claims C7, C8, C9, C10 -/

/-- C7: a click in the Idle state (committedVertexCount = 0, no current
feature) creates a new feature whose ring is the clicked point repeated
exactly four times, sets the commit count to 1 and records the new
feature id as the session's handle. -/
theorem polygon_c7_idle_click (cfg : TerraDrawPolygonMode) (env : Behaviors)
    (e : TerraDrawMouseEvent) (s : PolygonState)
    (hcc : s.currentCoordinate = 0) (hid : s.currentId = none) :
    (onClick cfg env e s).currentId = some s.store.nextId ∧
    (onClick cfg env e s).currentCoordinate = 1 ∧
    (onClick cfg env e s).store.getGeometry s.store.nextId =
      [⟨e.lng, e.lat⟩, ⟨e.lng, e.lat⟩, ⟨e.lng, e.lat⟩, ⟨e.lng, e.lat⟩] := by
  simp [onClick, snappedClick, hcc, hid, Store.createFeature, Store.getGeometry,
    lookupRing]

/-- Witness for C7: clicking at (3,4) on the fresh state yields feature 0
with ring [(3,4),(3,4),(3,4),(3,4)] and commit count 1. -/
theorem polygon_c7_idle_click_witness :
    (onClick cfgDefault envPlain (evAt 3 4) stEmpty).currentId = some 0 ∧
    (onClick cfgDefault envPlain (evAt 3 4) stEmpty).currentCoordinate = 1 ∧
    (onClick cfgDefault envPlain (evAt 3 4) stEmpty).store.getGeometry 0 =
      [⟨3, 4⟩, ⟨3, 4⟩, ⟨3, 4⟩, ⟨3, 4⟩] :=
  polygon_c7_idle_click cfgDefault envPlain (evAt 3 4) stEmpty rfl rfl

/-- C8: constructed without options, or with every corresponding option
omitted, the mode's configuration has allowSelfIntersections = true,
snapping disabled and cancel key "Escape"; the configuration record is
immutable and shared by every handler, so these values are fixed for the
session. -/
theorem polygon_c8_defaults (o : PolygonModeOptions)
    (h1 : o.allowSelfIntersections = none) (h2 : o.snapping = none)
    (h3 : o.keyEvents = none) :
    makePolygonMode none = ⟨true, false, ⟨"Escape"⟩, 9⟩ ∧
    makePolygonMode (some o) = ⟨true, false, ⟨"Escape"⟩, 9⟩ := by
  refine ⟨rfl, ?_⟩
  simp [makePolygonMode, h1, h2, h3]

/-- Witness for C8 at the all-omitted options record. -/
theorem polygon_c8_defaults_witness :
    makePolygonMode none = ⟨true, false, ⟨"Escape"⟩, 9⟩ ∧
    makePolygonMode (some ⟨none, none, none⟩) = ⟨true, false, ⟨"Escape"⟩, 9⟩ :=
  polygon_c8_defaults ⟨none, none, none⟩ rfl rfl rfl

/-- C9: a mouse move delivered while the session is Idle (no current
feature id or commit count 0) performs no store mutation and leaves every
session field unchanged; only the cursor is set. -/
theorem polygon_c9_idle_mousemove (cfg : TerraDrawPolygonMode) (env : Behaviors)
    (e : TerraDrawMouseEvent) (s : PolygonState)
    (h : s.currentId = none ∨ s.currentCoordinate = 0) :
    onMouseMove cfg env e s = { s with cursor := "crosshair" } := by
  rcases h with h | h
  · simp [onMouseMove, h]
  · cases hid : s.currentId <;> simp [onMouseMove, hid, h]

/-- Witness for C9 on the fresh state. -/
theorem polygon_c9_idle_mousemove_witness :
    onMouseMove cfgDefault envPlain (evAt 7 7) stEmpty =
      { stEmpty with cursor := "crosshair" } :=
  polygon_c9_idle_mousemove cfgDefault envPlain (evAt 7 7) stEmpty (Or.inl rfl)

/-- C10: cleanUp always ends with the session Idle (currentId cleared and
commit count 0) whatever the store deletion does; and when the deletion
of the in-progress feature throws, the marker deletion in the same try
block is skipped, so the store and the closing markers are left exactly
as they were while the session fields are still reset. -/
theorem polygon_c10_cleanup_throw (s : PolygonState) (t : Bool) :
    (cleanUp t s).currentId = none ∧ (cleanUp t s).currentCoordinate = 0 ∧
    (t = true → s.currentId.isSome = true →
      (cleanUp t s).store = s.store ∧ (cleanUp t s).markers = s.markers) := by
  refine ⟨rfl, rfl, fun ht hsome => ?_⟩
  cases hid : s.currentId with
  | none => rw [hid] at hsome; simp at hsome
  | some fid => subst ht; simp [cleanUp, hid]

/-- Witness for C10: a throwing delete on the Drawing-state fixture resets
the session but keeps the store and the markers. -/
theorem polygon_c10_cleanup_throw_witness :
    (cleanUp true stThree).currentId = none ∧
    (cleanUp true stThree).currentCoordinate = 0 ∧
    (true = true → stThree.currentId.isSome = true →
      (cleanUp true stThree).store = stThree.store ∧
      (cleanUp true stThree).markers = stThree.markers) :=
  polygon_c10_cleanup_throw stThree true

/-- C5: a cancel key event is accepted at any commit count and always
resets the session to Idle; at Idle with no markers it is a complete
no-op; on the normal (non-throwing) path it deletes the in-progress
feature and the closing markers; and because deletion failures are
swallowed, a second cancel issued after a successful one changes nothing
at all, whatever the store would do then. -/
theorem polygon_c5_cancel (cfg : TerraDrawPolygonMode) (s : PolygonState)
    (t t2 : Bool) (fid : Nat) :
    ((onKeyUp cfg t ⟨cfg.keyEvents.cancel⟩ s).currentId = none ∧
     (onKeyUp cfg t ⟨cfg.keyEvents.cancel⟩ s).currentCoordinate = 0) ∧
    (s.currentId = none → s.currentCoordinate = 0 → s.markers = [] →
      onKeyUp cfg t ⟨cfg.keyEvents.cancel⟩ s = s) ∧
    (s.currentId = some fid → t = false →
      (onKeyUp cfg t ⟨cfg.keyEvents.cancel⟩ s).store = s.store.deleteFeature fid ∧
      (onKeyUp cfg t ⟨cfg.keyEvents.cancel⟩ s).markers = []) ∧
    (onKeyUp cfg t2 ⟨cfg.keyEvents.cancel⟩
        (onKeyUp cfg false ⟨cfg.keyEvents.cancel⟩ s) =
      onKeyUp cfg false ⟨cfg.keyEvents.cancel⟩ s) := by
  have hk : onKeyUp cfg t ⟨cfg.keyEvents.cancel⟩ s = cleanUp t s := by
    simp [onKeyUp]
  have hk2 : onKeyUp cfg false ⟨cfg.keyEvents.cancel⟩ s = cleanUp false s := by
    simp [onKeyUp]
  have hk3 : ∀ u s1, onKeyUp cfg u ⟨cfg.keyEvents.cancel⟩ s1 = cleanUp u s1 := by
    intro u s1; simp [onKeyUp]
  refine ⟨⟨by rw [hk]; rfl, by rw [hk]; rfl⟩, ?_, ?_, ?_⟩
  · intro hid hcc hm
    rw [hk]
    cases s with
    | mk a b c d e2 f =>
      simp only [PolygonState.currentId] at hid
      simp only [PolygonState.currentCoordinate] at hcc
      simp only [PolygonState.markers] at hm
      subst hid; subst hcc; subst hm
      simp [cleanUp]
  · intro hid ht
    subst ht
    rw [hk]
    simp [cleanUp, hid]
    split <;> simp_all
  · rw [hk3, hk3]
    have h1 : (cleanUp false s).currentId = none := rfl
    have h0 : (cleanUp false s).currentCoordinate = 0 := rfl
    have h2 : (cleanUp false s).markers = [] := by
      cases hid : s.currentId <;> simp [cleanUp, hid] <;> split <;> simp_all
    cases hcl : cleanUp false s with
    | mk a b c d e2 f =>
      rw [hcl] at h0 h1 h2
      simp only [PolygonState.currentCoordinate, PolygonState.currentId,
        PolygonState.markers] at h0 h1 h2
      subst h0; subst h1; subst h2
      simp [cleanUp]

/-- Witness for C5: cancelling the Drawing-state fixture empties the
session and a second cancel changes nothing. -/
theorem polygon_c5_cancel_witness :
    (onKeyUp cfgDefault false ⟨cfgDefault.keyEvents.cancel⟩ stThree).currentId = none ∧
    (onKeyUp cfgDefault false ⟨cfgDefault.keyEvents.cancel⟩ stThree).currentCoordinate = 0 ∧
    (onKeyUp cfgDefault false ⟨cfgDefault.keyEvents.cancel⟩ stThree).markers = [] ∧
    onKeyUp cfgDefault true ⟨cfgDefault.keyEvents.cancel⟩
        (onKeyUp cfgDefault false ⟨cfgDefault.keyEvents.cancel⟩ stThree) =
      onKeyUp cfgDefault false ⟨cfgDefault.keyEvents.cancel⟩ stThree :=
  ⟨(polygon_c5_cancel cfgDefault stThree false true 0).1.1,
   (polygon_c5_cancel cfgDefault stThree false true 0).1.2,
   ((polygon_c5_cancel cfgDefault stThree false true 0).2.2.1 (by decide) rfl).2,
   (polygon_c5_cancel cfgDefault stThree false true 0).2.2.2⟩

/-! ### Claim C1 -/

/-- C1 counterexample: in the Drawing state with three committed vertices,
a single click inside the closing hit-zone (at the closing marker (0,0),
under the spec-modelled detector) resets committedVertexCount to 0,
clears the feature handle, deletes the markers and commits the final
ring — contradicting the claim that one closing-zone click alone only
arms closing and never resets the count. -/
theorem polygon_c1_counterexample :
    stThree.currentCoordinate = 3 ∧
    (envClose.closingFn (evAt 0 0)).isClosing = true ∧
    (onClick cfgDefault envClose (evAt 0 0) stThree).currentCoordinate = 0 ∧
    (onClick cfgDefault envClose (evAt 0 0) stThree).currentId = none ∧
    (onClick cfgDefault envClose (evAt 0 0) stThree).markers = [] ∧
    (onClick cfgDefault envClose (evAt 0 0) stThree).store.getGeometry 0 =
      [⟨0, 0⟩, ⟨1, 1⟩, ⟨2, 0⟩, ⟨0, 0⟩] := by decide

/-- C1 amended: in the Drawing state (committedVertexCount at least 3), a
click inside the closing hit-zone immediately finalizes the ring: it
replaces the last two ring entries with the first vertex, deletes the
closing markers and resets the session to Idle (count 0, no feature
handle). The arming step the claim describes — collapsing the tail and
marking the session closed without advancing the count — happens on mouse
move, not on click. -/
theorem polygon_c1_amended (cfg : TerraDrawPolygonMode) (env : Behaviors)
    (e : TerraDrawMouseEvent) (s : PolygonState) (fid : Nat)
    (hid : s.currentId = some fid) (hcc : 3 ≤ s.currentCoordinate)
    (hcl : (env.closingFn e).isClosing = true ∨
      (env.closingFn e).isPreviousClosing = true) :
    onClick cfg env e s =
      { s with
        store := s.store.updateGeometry fid
          ((s.store.getGeometry fid).dropLast.dropLast ++
            [coordAt (s.store.getGeometry fid) 0])
        currentCoordinate := 0
        currentId := none
        markers := [] } := by
  have h0 : ¬ s.currentCoordinate = 0 := by omega
  have h1 : ¬ s.currentCoordinate = 1 := by omega
  have h2 : ¬ s.currentCoordinate = 2 := by omega
  have hb : ((env.closingFn e).isPreviousClosing || (env.closingFn e).isClosing) = true := by
    rcases hcl with h | h <;> simp [h]
  simp [onClick, hid, h0, h1, h2, hb]

/-- Witness for C1 amended: the closing click on the Drawing-state fixture
produces exactly the finalized state. -/
theorem polygon_c1_amended_witness :
    onClick cfgDefault envClose (evAt 0 0) stThree =
      { stThree with
        store := stThree.store.updateGeometry 0
          ((stThree.store.getGeometry 0).dropLast.dropLast ++
            [coordAt (stThree.store.getGeometry 0) 0])
        currentCoordinate := 0
        currentId := none
        markers := [] } :=
  polygon_c1_amended cfgDefault envClose (evAt 0 0) stThree 0
    (by decide) (by decide) (Or.inl (by decide))

/-! ### Claim C3 -/

/-- Configuration with snapping enabled and every other option omitted. -/
def cfgSnap : TerraDrawPolygonMode := makePolygonMode (some ⟨none, some true, none⟩)

/-- Collaborators whose snap resolver always suggests (5,5). -/
def envSnap : Behaviors :=
  { envPlain with snapFn := fun _ _ => some ⟨5, 5⟩ }

/-- C3 counterexample: with snapping enabled and the resolver suggesting
(5,5) for every pointer position, the very first Idle click at (0,0)
still creates the ring from the raw coordinate — the resolver is never
consulted while no feature is in progress, so the claim fails for the
Idle to First transition. -/
theorem polygon_c3_counterexample :
    cfgSnap.snappingEnabled = true ∧
    envSnap.snapFn (evAt 0 0) 0 = some ⟨5, 5⟩ ∧
    stEmpty.currentCoordinate = 0 ∧
    (onClick cfgSnap envSnap (evAt 0 0) stEmpty).store.getGeometry 0 =
      [⟨0, 0⟩, ⟨0, 0⟩, ⟨0, 0⟩, ⟨0, 0⟩] ∧
    (⟨0, 0⟩ : Coord) ≠ ⟨5, 5⟩ := by decide

/-- C3 amended: when snapping is enabled and the Snap Resolver returns a
replacement coordinate, every click transition with a feature already in
progress (count 1, count 2, and Drawing-state non-closing clicks) uses
the replacement in place of the raw pointer coordinate, before the
identity and self-intersection checks; the Idle to First click is the
exception and always uses the raw pointer coordinate, because the
resolver is only consulted when an in-progress feature exists. -/
theorem polygon_c3_amended (cfg : TerraDrawPolygonMode) (env : Behaviors)
    (e : TerraDrawMouseEvent) (s : PolygonState) (fid : Nat) (q : Coord)
    (ring : List Coord) :
    (s.currentCoordinate = 0 → s.currentId = none →
      (onClick cfg env e s).store.getGeometry s.store.nextId =
        [⟨e.lng, e.lat⟩, ⟨e.lng, e.lat⟩, ⟨e.lng, e.lat⟩, ⟨e.lng, e.lat⟩]) ∧
    (cfg.snappingEnabled = true → s.currentId = some fid →
      env.snapFn e fid = some q →
      lookupRing s.store.features fid = some ring →
      ((s.currentCoordinate = 1 →
          coordinatesIdentical q (coordAt ring 0) = false →
          (onClick cfg env e s).store.getGeometry fid =
            [coordAt ring 0, q, q, coordAt ring 0]) ∧
       (s.currentCoordinate = 2 →
          coordinatesIdentical q (coordAt ring 1) = false →
          (onClick cfg env e s).store.getGeometry fid =
            [coordAt ring 0, coordAt ring 1, q, q, coordAt ring 0]) ∧
       (3 ≤ s.currentCoordinate →
          env.closingFn e = ⟨false, false⟩ →
          coordinatesIdentical q (coordAt ring (s.currentCoordinate - 1)) = false →
          env.selfIntersectsFn (ring.dropLast ++ [q, coordAt ring 0]) = false →
          (onClick cfg env e s).store.getGeometry fid =
            ring.dropLast ++ [q, coordAt ring 0]) ∧
       (3 ≤ s.currentCoordinate →
          env.closingFn e = ⟨false, false⟩ →
          coordinatesIdentical q (coordAt ring (s.currentCoordinate - 1)) = false →
          cfg.allowSelfIntersections = false →
          env.selfIntersectsFn (ring.dropLast ++ [q, coordAt ring 0]) = true →
          onClick cfg env e s = s))) := by
  constructor
  · intro hcc hid
    simp [onClick, snappedClick, hcc, hid, Store.createFeature, Store.getGeometry,
      lookupRing]
  · intro hsnap hid hq hring
    have hgeom : s.store.getGeometry fid = ring := by
      simp [Store.getGeometry, hring]
    have hp : snappedClick cfg env e s = q := by
      simp [snappedClick, hid, hsnap, hq]
    refine ⟨?_, ?_, ?_, ?_⟩
    · intro hcc hne
      simp [onClick, hid, hcc, hp, hgeom, hne,
        getGeometry_update_self s.store fid _ ring hring]
    · intro hcc hne
      simp [onClick, hid, hcc, hp, hgeom, hne,
        getGeometry_update_self s.store fid _ ring hring]
    · intro hcc hcl hne hsi
      have h0 : ¬ s.currentCoordinate = 0 := by omega
      have h1 : ¬ s.currentCoordinate = 1 := by omega
      have h2 : ¬ s.currentCoordinate = 2 := by omega
      simp [onClick, hid, h0, h1, h2, hcl, hp, hgeom, hne, createPolygon, hsi,
        getGeometry_update_self s.store fid _ ring hring]
    · intro hcc hcl hne hallow hsi
      have h0 : ¬ s.currentCoordinate = 0 := by omega
      have h1 : ¬ s.currentCoordinate = 1 := by omega
      have h2 : ¬ s.currentCoordinate = 2 := by omega
      have h3 : 2 < s.currentCoordinate := by omega
      simp [onClick, hid, h0, h1, h2, h3, hcl, hp, hgeom, hne, createPolygon,
        hsi, hallow]

/-- Witness for C3 amended: with snapping enabled on the one-vertex state,
a click at (9,9) commits the resolver's suggestion (5,5) instead. -/
theorem polygon_c3_amended_witness :
    (onClick cfgSnap envSnap (evAt 9 9) stOne).store.getGeometry 0 =
      [⟨0, 0⟩, ⟨5, 5⟩, ⟨5, 5⟩, ⟨0, 0⟩] :=
  ((polygon_c3_amended cfgSnap envSnap (evAt 9 9) stOne 0 ⟨5, 5⟩
      [⟨0, 0⟩, ⟨0, 0⟩, ⟨0, 0⟩, ⟨0, 0⟩]).2 (by decide) (by decide) rfl
    (by decide)).1 (by decide) (by decide)

/-! ### Claim C2 -/

/-- The ring currently stored for the in-progress feature (empty when no
feature is in progress). -/
def currentRing (s : PolygonState) : List Coord :=
  match s.currentId with
  | some fid => s.store.getGeometry fid
  | none => []

/-- C2 counterexample: on the Drawing-state fixture, a click exactly on
the immediately preceding committed vertex (2,0) is not a no-op — under
the spec-modelled closing detector that click lies inside the
previous-vertex hit-zone, so it finalizes the ring and resets the count
from 3 to 0. -/
theorem polygon_c2_counterexample :
    stThree.currentCoordinate = 3 ∧
    coordinatesIdentical (snappedClick cfgDefault envClose (evAt 2 0) stThree)
      (coordAt (currentRing stThree) (stThree.currentCoordinate - 1)) = true ∧
    (onClick cfgDefault envClose (evAt 2 0) stThree).currentCoordinate = 0 ∧
    onClick cfgDefault envClose (evAt 2 0) stThree ≠ stThree := by decide

/-- C2 amended: for every session state with committedVertexCount at least
1, a click whose (possibly snapped) coordinate is identical to the
immediately preceding committed vertex is a silent no-op — provided that,
when committedVertexCount is at least 3, the click does not land in the
closing hit-zone; a click exactly on the preceding vertex while the
closing markers are active lies in the previous-vertex hit-zone and
finalizes the ring instead. -/
theorem polygon_c2_amended (cfg : TerraDrawPolygonMode) (env : Behaviors)
    (e : TerraDrawMouseEvent) (s : PolygonState)
    (hcc : 1 ≤ s.currentCoordinate)
    (hnc : 3 ≤ s.currentCoordinate →
      (env.closingFn e).isClosing = false ∧
      (env.closingFn e).isPreviousClosing = false)
    (hident : coordinatesIdentical (snappedClick cfg env e s)
      (coordAt (currentRing s) (s.currentCoordinate - 1)) = true) :
    onClick cfg env e s = s := by
  have h0 : ¬ s.currentCoordinate = 0 := by omega
  cases hid : s.currentId with
  | none => simp [onClick, hid, h0]
  | some fid =>
    have hring : currentRing s = s.store.getGeometry fid := by
      simp [currentRing, hid]
    rw [hring] at hident
    rcases Nat.lt_or_ge s.currentCoordinate 3 with h3 | h3
    · have hor : s.currentCoordinate = 1 ∨ s.currentCoordinate = 2 := by omega
      rcases hor with h | h
      · rw [h] at hident
        simp [onClick, hid, h, hident]
      · rw [h] at hident
        simp [onClick, hid, h, hident]
    · obtain ⟨hc1, hc2⟩ := hnc h3
      have h1 : ¬ s.currentCoordinate = 1 := by omega
      have h2 : ¬ s.currentCoordinate = 2 := by omega
      have hb : ((env.closingFn e).isPreviousClosing ||
          (env.closingFn e).isClosing) = false := by
        simp [hc1, hc2]
      simp [onClick, hid, h0, h1, h2, hb, hident]

/-- Witness for C2 amended: clicking (0,0) again on the one-vertex state
changes nothing at all. -/
theorem polygon_c2_amended_witness :
    onClick cfgDefault envPlain (evAt 0 0) stOne = stOne :=
  polygon_c2_amended cfgDefault envPlain (evAt 0 0) stOne (by decide)
    (by decide) (by decide)

/-! ### Claim C4 -/

/-- C4: in the Drawing state with a non-closing, non-duplicate click,
when self-intersection prevention is enabled
(allowSelfIntersections = false) and the Self-Intersection Guard flags
the candidate ring, the click is rejected with the entire state — count
and stored ring included — unchanged; with allowSelfIntersections = true
the same candidate ring is committed and the count incremented. -/
theorem polygon_c4_self_intersection (cfg : TerraDrawPolygonMode)
    (env : Behaviors) (e : TerraDrawMouseEvent) (s : PolygonState) (fid : Nat)
    (hid : s.currentId = some fid) (hcc : 3 ≤ s.currentCoordinate)
    (hcl : env.closingFn e = ⟨false, false⟩)
    (hne : coordinatesIdentical (snappedClick cfg env e s)
      (coordAt (s.store.getGeometry fid) (s.currentCoordinate - 1)) = false)
    (hring : lookupRing s.store.features fid = some (s.store.getGeometry fid)) :
    (cfg.allowSelfIntersections = false →
      env.selfIntersectsFn ((s.store.getGeometry fid).dropLast ++
        [snappedClick cfg env e s, coordAt (s.store.getGeometry fid) 0]) = true →
      onClick cfg env e s = s) ∧
    (cfg.allowSelfIntersections = true →
      (onClick cfg env e s).store.getGeometry fid =
        (s.store.getGeometry fid).dropLast ++
          [snappedClick cfg env e s, coordAt (s.store.getGeometry fid) 0] ∧
      (onClick cfg env e s).currentCoordinate = s.currentCoordinate + 1) := by
  have h0 : ¬ s.currentCoordinate = 0 := by omega
  have h1 : ¬ s.currentCoordinate = 1 := by omega
  have h2 : ¬ s.currentCoordinate = 2 := by omega
  have h3 : 2 < s.currentCoordinate := by omega
  constructor
  · intro hallow hsi
    simp [onClick, hid, h0, h1, h2, h3, hcl, hne, createPolygon, hallow, hsi]
  · intro hallow
    simp [onClick, hid, h0, h1, h2, h3, hcl, hne, createPolygon, hallow,
      getGeometry_update_self s.store fid _ _ hring]

/-- Witness for C4: on the Drawing-state fixture, with the guard enabled
and a flagging oracle the click at (1,0) is rejected outright, and with
the default configuration (guard disabled) the same click commits the
candidate and advances the count to 4. -/
theorem polygon_c4_self_intersection_witness :
    (onClick ⟨false, false, ⟨"Escape"⟩, 9⟩
        { envPlain with selfIntersectsFn := fun _ => true }
        (evAt 1 0) stThree = stThree) ∧
    (onClick cfgDefault envPlain (evAt 1 0) stThree).currentCoordinate = 4 :=
  ⟨(polygon_c4_self_intersection ⟨false, false, ⟨"Escape"⟩, 9⟩
      { envPlain with selfIntersectsFn := fun _ => true }
      (evAt 1 0) stThree 0 (by decide) (by decide) rfl (by decide)
      (by decide)).1 rfl rfl,
   ((polygon_c4_self_intersection cfgDefault envPlain
      (evAt 1 0) stThree 0 (by decide) (by decide) rfl (by decide)
      (by decide)).2 rfl).2⟩

/-! ### Claim C6: the closed-ring invariant -/

theorem ringClosedOk_none (s : PolygonState) (hid : s.currentId = none) :
    ringClosedOk s = true := by
  simp [ringClosedOk, hid]

theorem ringClosedOk_some (s : PolygonState) (fid : Nat)
    (hid : s.currentId = some fid) :
    ringClosedOk s =
      (decide (4 ≤ (s.store.getGeometry fid).length) &&
        ((s.store.getGeometry fid).head? == (s.store.getGeometry fid).getLast?)) := by
  simp [ringClosedOk, hid]

theorem ringClosedOk_update (s : PolygonState) (fid : Nat) (r : List Coord)
    (s2 : PolygonState) (hid2 : s2.currentId = some fid)
    (hst : s2.store = s.store.updateGeometry fid r)
    (hlk : lookupRing s.store.features fid = some (s.store.getGeometry fid))
    (h4 : 4 ≤ r.length) (hh : r.head? = r.getLast?) :
    ringClosedOk s2 = true := by
  rw [ringClosedOk_some s2 fid hid2, hst,
    getGeometry_update_self s.store fid r _ hlk, hh]
  simp [h4]

theorem ringClosedOk_moveCommit (s2 : PolygonState) (fid : Nat) (r : List Coord)
    (hid2 : s2.currentId = some fid)
    (hlk : lookupRing s2.store.features fid = some (s2.store.getGeometry fid))
    (h4 : 4 ≤ r.length) (hh : r.head? = r.getLast?) :
    ringClosedOk (moveCommit s2 fid r) = true := by
  unfold moveCommit
  dsimp only
  split <;>
    simp [ringClosedOk, hid2, getGeometry_update_self s2.store fid r _ hlk, hh, h4]

theorem head?_dropLast_append (l tail : List Coord) (h : 2 ≤ l.length) :
    (l.dropLast ++ tail).head? = some (coordAt l 0) := by
  match l, h with
  | a :: b :: t, _ => rfl

theorem head?_dropLast2_append (l tail : List Coord) (h : 3 ≤ l.length) :
    (l.dropLast.dropLast ++ tail).head? = some (coordAt l 0) := by
  match l, h with
  | a :: b :: c :: t, _ => rfl

theorem onClick_preserves_closed (cfg : TerraDrawPolygonMode) (env : Behaviors)
    (e : TerraDrawMouseEvent) (s : PolygonState)
    (hinv : ringClosedOk s = true) :
    ringClosedOk (onClick cfg env e s) = true := by
  by_cases hcc0 : s.currentCoordinate = 0
  · simp [onClick, hcc0, ringClosedOk, Store.createFeature, Store.getGeometry,
      lookupRing]
  · cases hid : s.currentId with
    | none => simpa [onClick, hcc0, hid] using hinv
    | some fid =>
      have hinv2 := hinv
      rw [ringClosedOk_some s fid hid, Bool.and_eq_true, decide_eq_true_eq,
        beq_iff_eq] at hinv2
      obtain ⟨hlen, hclosed⟩ := hinv2
      have hlk : lookupRing s.store.features fid = some (s.store.getGeometry fid) :=
        lookup_of_length _ _ hlen
      by_cases hcc1 : s.currentCoordinate = 1
      · by_cases hident : coordinatesIdentical (snappedClick cfg env e s)
            (coordAt (s.store.getGeometry fid) 0) = true
        · simpa [onClick, hcc0, hid, hcc1, hident] using hinv
        · rw [Bool.not_eq_true] at hident
          simp only [onClick, hcc0, hid, hcc1, hident, if_true, if_false,
            Bool.false_eq_true, ite_false, ite_true]
          refine ringClosedOk_update s fid _ _ (by simp) rfl hlk (by simp) rfl
      · by_cases hcc2 : s.currentCoordinate = 2
        · by_cases hident : coordinatesIdentical (snappedClick cfg env e s)
              (coordAt (s.store.getGeometry fid) 1) = true
          · simpa [onClick, hcc0, hid, hcc1, hcc2, hident] using hinv
          · rw [Bool.not_eq_true] at hident
            simp only [onClick, hcc0, hid, hcc1, hcc2, hident, if_true, if_false,
              Bool.false_eq_true, ite_false, ite_true]
            refine ringClosedOk_update s fid _ _ (by simp) rfl hlk (by simp) rfl
        · by_cases hcl : ((env.closingFn e).isPreviousClosing ||
              (env.closingFn e).isClosing) = true
          · simp only [onClick, hcc0, hid, hcc1, hcc2, hcl, ite_true, ite_false]
            exact ringClosedOk_none _ (by simp)
          · rw [Bool.not_eq_true] at hcl
            by_cases hident : coordinatesIdentical (snappedClick cfg env e s)
                (coordAt (s.store.getGeometry fid) (s.currentCoordinate - 1)) = true
            · simpa [onClick, hcc0, hid, hcc1, hcc2, hcl, hident] using hinv
            · rw [Bool.not_eq_true] at hident
              by_cases hveto : 2 < s.currentCoordinate ∧
                  cfg.allowSelfIntersections = false ∧
                  env.selfIntersectsFn (createPolygon
                    ((s.store.getGeometry fid).dropLast ++
                      [snappedClick cfg env e s,
                       coordAt (s.store.getGeometry fid) 0])) = true
              · simpa [onClick, hcc0, hid, hcc1, hcc2, hcl, hident, hveto] using hinv
              · simp only [onClick, hcc0, hid, hcc1, hcc2, hcl, hident, hveto,
                  Bool.false_eq_true, ite_false, ite_true, if_false]
                refine ringClosedOk_update s fid _ _ (by simp) rfl hlk ?_ ?_
                · simp only [createPolygon, List.length_append,
                    List.length_dropLast, List.length_cons, List.length_nil]
                  omega
                · simp only [createPolygon]
                  rw [getLast_append_double,
                    head?_dropLast_append _ _ (by omega)]

theorem onMouseMove_preserves_closed (cfg : TerraDrawPolygonMode)
    (env : Behaviors) (e : TerraDrawMouseEvent) (s : PolygonState)
    (hinv : ringClosedOk s = true) :
    ringClosedOk (onMouseMove cfg env e s) = true := by
  cases hid : s.currentId with
  | none =>
    simp only [onMouseMove, hid]
    rfl
  | some fid =>
    by_cases hcc0 : s.currentCoordinate = 0
    · simp only [onMouseMove, hid, hcc0, ite_true, if_true]
      rw [ringClosedOk_some _ fid rfl]
      rw [ringClosedOk_some s fid hid] at hinv
      exact hinv
    · have hinv2 := hinv
      rw [ringClosedOk_some s fid hid, Bool.and_eq_true, decide_eq_true_eq,
        beq_iff_eq] at hinv2
      obtain ⟨hlen, hclosed⟩ := hinv2
      have hlk : lookupRing s.store.features fid = some (s.store.getGeometry fid) :=
        lookup_of_length _ _ hlen
      by_cases hcc1 : s.currentCoordinate = 1
      · simp only [onMouseMove, hid, hcc0, hcc1, if_true, if_false, ite_true,
          ite_false]
        exact ringClosedOk_moveCommit _ fid _ (by simp [hid]) hlk (by simp) rfl
      · by_cases hcc2 : s.currentCoordinate = 2
        · simp only [onMouseMove, hid, hcc0, hcc1, hcc2, if_true, if_false,
            ite_true, ite_false]
          exact ringClosedOk_moveCommit _ fid _ (by simp [hid]) hlk (by simp) rfl
        · by_cases hcl : ((env.closingFn e).isPreviousClosing ||
              (env.closingFn e).isClosing) = true
          · simp only [onMouseMove, hid, hcc0, hcc1, hcc2, hcl, if_true,
              if_false, ite_true, ite_false]
            refine ringClosedOk_moveCommit _ fid _ (by simp [hid]) hlk ?_ ?_
            · simp only [List.length_append, List.length_dropLast,
                List.length_cons, List.length_nil]
              omega
            · rw [getLast_append_double, head?_dropLast2_append _ _ (by omega)]
          · rw [Bool.not_eq_true] at hcl
            simp only [onMouseMove, hid, hcc0, hcc1, hcc2, hcl,
              Bool.false_eq_true, if_true, if_false, ite_true, ite_false]
            refine ringClosedOk_moveCommit _ fid _ (by simp [hid]) hlk ?_ ?_
            · simp only [List.length_append, List.length_dropLast,
                List.length_cons, List.length_nil]
              omega
            · rw [getLast_append_double, head?_dropLast2_append _ _ (by omega)]

/-- C6: for every state satisfying the closed-ring invariant — whenever a
feature is in progress its stored ring has at least four entries and
identical first and last entries — both the click handler and the mouse
move handler preserve the invariant, so the stored ring of the
in-progress polygon is closed after every handler completes, at every
intermediate state of construction. -/
theorem polygon_c6_closed_ring (cfg : TerraDrawPolygonMode) (env : Behaviors)
    (e : TerraDrawMouseEvent) (s : PolygonState)
    (hinv : ringClosedOk s = true) :
    ringClosedOk (onClick cfg env e s) = true ∧
    ringClosedOk (onMouseMove cfg env e s) = true :=
  ⟨onClick_preserves_closed cfg env e s hinv,
   onMouseMove_preserves_closed cfg env e s hinv⟩

/-- Witness for C6 on the Drawing-state fixture: the invariant holds and
is preserved by a click and a mouse move at (5,5). -/
theorem polygon_c6_closed_ring_witness :
    ringClosedOk stThree = true ∧
    (ringClosedOk (onClick cfgDefault envPlain (evAt 5 5) stThree) = true ∧
     ringClosedOk (onMouseMove cfgDefault envPlain (evAt 5 5) stThree) = true) :=
  ⟨by decide, polygon_c6_closed_ring cfgDefault envPlain (evAt 5 5) stThree (by decide)⟩
